import Mathlib

/-!
Verification of the join-application submission flow of the nodeX website
(`src/components/global/join-form.tsx`).

The component is embedded shallowly: the form values, the zod validation
schema, and the `onSubmit` handler become pure Lean functions over an
explicit environment that fixes the outcome of the single `fetch` call and
the settlement (resolve or reject) of each awaited `logActivity` call.
-/

/-- The form values managed by `useForm<FormData>` (join-form.tsx lines
38-61).  The three optional free-text fields are strings defaulted to `""`
exactly as in `defaultValues`. -/
structure FormData where
  name : String
  email : String
  phone : String
  batch : String
  rollNumber : String
  registrationNumber : String
  department : String
  interestedTracks : List String
  whyJoin : String
  experience : String
  projects : String
  otherRemarks : String
  recaptchaToken : String
deriving DecidableEq, Repr

/-- `defaultValues` passed to `useForm` (join-form.tsx lines 89-104):
every string field `""`, `interestedTracks` empty. -/
def defaultValues : FormData :=
  { name := "", email := "", phone := "", batch := "", rollNumber := "",
    registrationNumber := "", department := "", interestedTracks := [],
    whyJoin := "", experience := "", projects := "", otherRemarks := "",
    recaptchaToken := "" }

/-- Split a character list at every occurrence of the separator `c`
(the analogue of `String.splitOn` for a one-character separator). -/
def splitOnChar (c : Char) : List Char → List (List Char)
  | [] => [[]]
  | a :: rest =>
    match splitOnChar c rest with
    | [] => if a = c then [[], []] else [[a]]
    | h :: t => if a = c then [] :: h :: t else (a :: h) :: t

/-- Model of the `z.string().email(...)` check of the schema.  zod delegates
to a library regex; we model it as: exactly one `@`, non-empty user part,
and a domain made of at least two non-empty dot-separated labels.  The only
facet the claims rely on is that the empty string (and any string without a
well-formed `@domain` part) is rejected, which holds for zod as well. -/
def emailValid (s : String) : Bool :=
  match splitOnChar '@' s.toList with
  | [user, domain] =>
      !user.isEmpty && (splitOnChar '.' domain).length ≥ 2 &&
        (splitOnChar '.' domain).all (fun part => !part.isEmpty)
  | _ => false

/-- One inline field error produced by the resolver: the field name and the
message given in `formSchema`. -/
structure FieldError where
  field : String
  message : String
deriving DecidableEq, Repr

/-- The zod `formSchema` (join-form.tsx lines 38-59) as a function from the
form values to the list of field errors, one entry per failing constraint,
in schema order.  `z.string().min(k, msg)` fails when the length is
below `k`; `experience`, `projects` and `otherRemarks` are `.optional()`
and contribute no check. -/
def validateForm (v : FormData) : List FieldError :=
  (if v.name.length < 2 then
    [⟨"name", "Name must be at least 2 characters"⟩] else []) ++
  (if emailValid v.email then [] else
    [⟨"email", "Invalid email address"⟩]) ++
  (if v.phone.length < 10 then
    [⟨"phone", "Phone number must be at least 10 digits"⟩] else []) ++
  (if v.batch.length < 4 then
    [⟨"batch", "Please enter your batch year"⟩] else []) ++
  (if v.rollNumber.length < 1 then
    [⟨"rollNumber", "Roll number is required"⟩] else []) ++
  (if v.registrationNumber.length < 1 then
    [⟨"registrationNumber", "Registration number is required"⟩] else []) ++
  (if v.department.length < 1 then
    [⟨"department", "Please select a department"⟩] else []) ++
  (if v.interestedTracks.length < 1 then
    [⟨"interestedTracks", "Please select at least one track"⟩] else []) ++
  (if v.whyJoin.length < 50 then
    [⟨"whyJoin",
      "Please provide at least 50 characters explaining why you want to join"⟩]
   else []) ++
  (if v.recaptchaToken.length < 1 then
    [⟨"recaptchaToken", "reCAPTCHA verification is required"⟩] else [])

/-- The `submitStatus.type` field: `"success" | "error" | null`
(join-form.tsx lines 77-80). -/
inductive StatusType where
  | noStatus
  | success
  | error
deriving DecidableEq, Repr

/-- The `submitStatus` state hook value (join-form.tsx lines 77-80). -/
structure SubmitStatus where
  type : StatusType
  message : String
deriving DecidableEq, Repr

/-- The component state the submission flow touches: the form values, the
reCAPTCHA widget value read through `recaptchaRef.current?.getValue()`
(`none` models an absent or unfilled widget), the `isSubmitting` flag and
the `submitStatus` banner. -/
structure FormState where
  values : FormData
  widgetToken : Option String
  isSubmitting : Bool
  submitStatus : SubmitStatus
deriving DecidableEq, Repr

/-- The JSON payload `data` parsed from the response (join-form.tsx line
136); the server contract uses `message`, `applicationId` and `redirect`,
each possibly absent. -/
structure Payload where
  message : Option String
  applicationId : Option String
  redirect : Option String
deriving DecidableEq, Repr

/-- Outcome of the awaited `fetch`/`response.json()` pair: either the pair
rejects with an error message (caught at line 167) or a response with a
status code and parsed payload is obtained. -/
inductive FetchOutcome where
  | failure (errMsg : String)
  | response (status : Nat) (payload : Payload)
deriving DecidableEq, Repr

/-- One call to `logActivity` with its event name and the context fields
actually passed at the three call sites (lines 143, 150, 161, 173). -/
inductive LogEvent where
  | joinFormSuccess (applicationId : Option String)
  | joinFormBlocked (reason : String)
  | joinFormError (errType : String) (statusCode : Option Nat)
      (errMsg : Option String)
deriving DecidableEq, Repr

/-- Modelled from the spec: the external logging collaborator behind the
`useActivityLogger` hook (`@/hooks/useActivityLogger`, not part of the
sources under verification).  The spec only says it "accepts an event name
and a structured context mapping; no return value is consumed", so whether
each awaited `logActivity` promise resolves or rejects is an environment
choice (`logOk`), with `logRejectMsg` the message of a rejection.  The
environment also fixes the outcome of the single network call. -/
structure Env where
  fetchOutcome : FetchOutcome
  logOk : LogEvent → Bool
  logRejectMsg : String

/-- JavaScript truthiness of `data.redirect` at line 148: an absent field
and the empty string are falsy. -/
def truthyStr : Option String → Bool
  | none => false
  | some s => s != ""

/-- JavaScript `x || fallback` on an optional string (`data.message ||`
at lines 141 and 159): the fallback is used when the field is absent or
the empty string. -/
def orDefault (o : Option String) (fallback : String) : String :=
  match o with
  | some s => if s = "" then fallback else s
  | none => fallback

/-- Everything observable about one run of the submit handler: the final
component state, whether the network request was issued, the location
assigned to `window.location.href` (if any), the `logActivity` calls made
(in order), the resolver errors shown, and whether an exception escaped
the handler. -/
structure SubmitResult where
  state : FormState
  networkCalled : Bool
  navigatedTo : Option String
  logged : List LogEvent
  fieldErrors : List FieldError
  uncaught : Bool
deriving Repr

/-- The early return at lines 113-120: the widget token is absent or empty
(`!token`), so an error status is set and the handler returns before any
network call. -/
def noTokenResult (st : FormState) : SubmitResult :=
  { state := { st with
      submitStatus :=
        { type := .error,
          message := "Please complete the reCAPTCHA verification." },
      isSubmitting := false },
    networkCalled := false, navigatedTo := none, logged := [],
    fieldErrors := [], uncaught := false }

/-- The `catch` block at lines 167-177 followed by the `finally` block: a
network-error banner is set, a `join_form_error`/`network_error` event is
awaited, and on its resolution the widget is reset; if that await itself
rejects, the rejection escapes the handler (the widget reset at line 177
is skipped), while `finally` still clears `isSubmitting`.  `prior` are the
log calls already made, `errMsg` the message of the caught error. -/
def catchBlock (st : FormState) (env : Env) (prior : List LogEvent)
    (errMsg : String) : SubmitResult :=
  let st2 : FormState := { st with
    submitStatus :=
      { type := .error,
        message := "Network error. Please check your connection and try again." } }
  let ev : LogEvent := .joinFormError "network_error" none (some errMsg)
  if env.logOk ev then
    { state := { st2 with widgetToken := none, isSubmitting := false },
      networkCalled := true, navigatedTo := none, logged := prior ++ [ev],
      fieldErrors := [], uncaught := false }
  else
    { state := { st2 with isSubmitting := false },
      networkCalled := true, navigatedTo := none, logged := prior ++ [ev],
      fieldErrors := [], uncaught := true }

/-- The `onSubmit` handler (join-form.tsx lines 106-181).  It sets
`isSubmitting`, clears the banner, reads the widget token (the widget is a
separate ref, so the state updates above do not affect it), returns early
without a network call when the token is falsy, otherwise issues the one
`fetch` and dispatches on the response: `response.ok` (2xx) succeeds and
resets the form, `status === 303 && data.redirect` navigates, anything
else shows the server message and resets only the widget.  Every awaited
`logActivity` sits inside `try`, so a rejection transfers control to the
`catch` block; `finally` always clears `isSubmitting`. -/
def onSubmit (st : FormState) (env : Env) : SubmitResult :=
  let st1 : FormState := { st with
    isSubmitting := true,
    submitStatus := { type := .noStatus, message := "" } }
  match st.widgetToken with
  | none => noTokenResult st1
  | some tok =>
    if tok = "" then noTokenResult st1
    else
      match env.fetchOutcome with
      | .failure msg => catchBlock st1 env [] msg
      | .response status payload =>
        if 200 ≤ status ∧ status ≤ 299 then
          let st2 : FormState := { st1 with
            submitStatus :=
              { type := .success,
                message :=
                  orDefault payload.message
                    "Application submitted successfully!" } }
          let ev : LogEvent := .joinFormSuccess payload.applicationId
          if env.logOk ev then
            { state := { st2 with
                values := defaultValues,
                widgetToken := none, isSubmitting := false },
              networkCalled := true, navigatedTo := none, logged := [ev],
              fieldErrors := [], uncaught := false }
          else
            catchBlock st2 env [ev] env.logRejectMsg
        else if status = 303 ∧ truthyStr payload.redirect then
          let ev : LogEvent := .joinFormBlocked "blocked_ip"
          if env.logOk ev then
            { state := { st1 with isSubmitting := false },
              networkCalled := true, navigatedTo := payload.redirect,
              logged := [ev], fieldErrors := [], uncaught := false }
          else
            catchBlock st1 env [ev] env.logRejectMsg
        else
          let st2 : FormState := { st1 with
            submitStatus :=
              { type := .error,
                message :=
                  orDefault payload.message
                    "Failed to submit application. Please try again." } }
          let ev : LogEvent :=
            .joinFormError "validation_or_server_error" (some status) none
          if env.logOk ev then
            { state := { st2 with widgetToken := none, isSubmitting := false },
              networkCalled := true, navigatedTo := none, logged := [ev],
              fieldErrors := [], uncaught := false }
          else
            catchBlock st2 env [ev] env.logRejectMsg

/-- `form.handleSubmit(onSubmit)` with the `zodResolver` (line 211): when
the schema reports any error, the errors are rendered inline and
`onSubmit` is never invoked; otherwise `onSubmit` runs on the validated
values. -/
def handleSubmit (st : FormState) (env : Env) : SubmitResult :=
  if validateForm st.values = [] then onSubmit st env
  else
    { state := st, networkCalled := false, navigatedTo := none,
      logged := [], fieldErrors := validateForm st.values, uncaught := false }

/-- A click of the submit button (line 518): the button carries
`disabled={isSubmitting}`, so while a submission is in flight the click
produces no submit event at all; otherwise the form submission runs
`handleSubmit`. -/
def submitEvent (st : FormState) (env : Env) : SubmitResult :=
  if st.isSubmitting then
    { state := st, networkCalled := false, navigatedTo := none,
      logged := [], fieldErrors := [], uncaught := false }
  else handleSubmit st env

/-! ### Concrete fixtures used by the witnesses -/

/-- A fully valid set of form values (passes every `formSchema` check). -/
def sampleValues : FormData :=
  { name := "Ada Lovelace", email := "ada@example.com", phone := "9876543210",
    batch := "2024", rollNumber := "42", registrationNumber := "REG42",
    department := "Computer Science and Engineering",
    interestedTracks := ["Coding & Development"],
    whyJoin := "I want to learn systems programming and build real projects with this community.",
    experience := "", projects := "", otherRemarks := "",
    recaptchaToken := "tok" }

/-- A component state ready to submit: valid values and a solved widget. -/
def readyState : FormState :=
  { values := sampleValues, widgetToken := some "tok", isSubmitting := false,
    submitStatus := { type := .noStatus, message := "" } }

/-- A state with a submission already in flight. -/
def busyState : FormState := { readyState with isSubmitting := true }

/-- A state whose reCAPTCHA widget has not been solved. -/
def noWidgetState : FormState := { readyState with widgetToken := none }

/-- A state whose values have an empty `name` field. -/
def emptyNameState : FormState :=
  { readyState with values := { sampleValues with name := "" } }

/-- A state whose motivation text is below the 50-character minimum. -/
def shortWhyState : FormState :=
  { readyState with values := { sampleValues with whyJoin := "Because." } }

/-- A successful server reply: 2xx payload carrying a confirmation message
and an application id. -/
def successPayload : Payload :=
  { message := some "Application received", applicationId := some "A1",
    redirect := none }

/-- Environment: the request succeeds with `successPayload` and every
awaited logging call resolves. -/
def successEnv : Env :=
  { fetchOutcome := .response 200 successPayload,
    logOk := fun _ => true, logRejectMsg := "activity log rejected" }

/-- Environment identical to `successEnv` except that the awaited
`join_form_success` logging call rejects. -/
def successEnvLogFail : Env :=
  { successEnv with
    logOk := fun e =>
      match e with
      | .joinFormSuccess _ => false
      | _ => true }

/-- Environment: the server answers 303 with a redirect location. -/
def redirectEnv : Env :=
  { fetchOutcome := .response 303
      { message := none, applicationId := none, redirect := some "/blocked" },
    logOk := fun _ => true, logRejectMsg := "" }

/-- Environment: the server answers 303 with no redirect location. -/
def redirectNoLocEnv : Env :=
  { fetchOutcome := .response 303
      { message := some "Forbidden", applicationId := none, redirect := none },
    logOk := fun _ => true, logRejectMsg := "" }

/-- Environment: the server rejects the submission with a 429 and a
rate-limit message. -/
def rateLimitEnv : Env :=
  { fetchOutcome := .response 429
      { message := some "Too many requests", applicationId := none,
        redirect := none },
    logOk := fun _ => true, logRejectMsg := "" }

/-- Environment: the network call itself rejects (no response). -/
def netFailEnv : Env :=
  { fetchOutcome := .failure "Failed to fetch",
    logOk := fun _ => true, logRejectMsg := "" }

/-! ### Helper lemmas -/

/-- The resolver accepts the values exactly when every `formSchema`
constraint holds. -/
theorem validateForm_eq_nil (v : FormData) :
    validateForm v = [] ↔
      (2 ≤ v.name.length ∧ emailValid v.email = true ∧ 10 ≤ v.phone.length ∧
       4 ≤ v.batch.length ∧ 1 ≤ v.rollNumber.length ∧
       1 ≤ v.registrationNumber.length ∧ 1 ≤ v.department.length ∧
       1 ≤ v.interestedTracks.length ∧ 50 ≤ v.whyJoin.length ∧
       1 ≤ v.recaptchaToken.length) := by
  simp [validateForm, List.append_eq_nil, ite_eq_right_iff, ite_eq_left_iff,
    Nat.not_lt, Nat.one_le_iff_ne_zero, List.length_pos]

/-- The `finally` block always clears `isSubmitting`, on every path out of
`onSubmit` (including the navigation path and an escaped log rejection). -/
theorem onSubmit_not_submitting (st : FormState) (env : Env) :
    (onSubmit st env).state.isSubmitting = false := by
  rcases ht : st.widgetToken with _ | tok <;>
    rcases hf : env.fetchOutcome with msg | ⟨status, p⟩ <;>
      simp only [onSubmit, ht, hf] <;>
      (try split_ifs) <;>
      simp [noTokenResult, catchBlock] <;>
      (try split_ifs) <;>
      (try rfl)

/-! ### Claims -/

/-- C1: for every HTTP response with status 303 whose JSON payload carries
a truthy `redirect` field, the controller navigates the client to that
location and clears or resets no form field (neither the form values nor
the widget token). -/
theorem blocked_redirect_navigates (st : FormState) (env : Env)
    (tok loc : String) (p : Payload)
    (ht : st.widgetToken = some tok) (htok : tok ≠ "")
    (hf : env.fetchOutcome = .response 303 p)
    (hr : p.redirect = some loc) (hloc : loc ≠ "")
    (hlog : env.logOk (.joinFormBlocked "blocked_ip") = true) :
    (onSubmit st env).navigatedTo = some loc ∧
    (onSubmit st env).state.values = st.values ∧
    (onSubmit st env).state.widgetToken = st.widgetToken := by
  simp [onSubmit, ht, htok, hf, hr, hloc, hlog, truthyStr, bne_iff_ne]

/-- Witness for C1: a 303 response with `redirect := "/blocked"` makes the
controller navigate to `/blocked` with all fields intact. -/
theorem blocked_redirect_navigates_witness :
    (onSubmit readyState redirectEnv).navigatedTo = some "/blocked" ∧
    (onSubmit readyState redirectEnv).state.values = readyState.values ∧
    (onSubmit readyState redirectEnv).state.widgetToken =
      readyState.widgetToken :=
  blocked_redirect_navigates readyState redirectEnv "tok" "/blocked"
    { message := none, applicationId := none, redirect := some "/blocked" }
    rfl (by decide) rfl rfl (by decide) rfl

/-- C2 (refuted, code bug): logging is not fire-and-forget.  Each
`logActivity` call is awaited inside the `try` block, so on one and the
same successful server response the resulting UI transition depends on
whether the logging collaborator resolves: when it resolves the form
reaches the success banner with all fields cleared, but when it rejects
the catch branch runs instead — a "Network error" banner is shown and the
field values are never cleared. -/
theorem logging_failure_changes_transition :
    (onSubmit readyState successEnv).state.submitStatus ≠
      (onSubmit readyState successEnvLogFail).state.submitStatus ∧
    (onSubmit readyState successEnv).state.values = defaultValues ∧
    (onSubmit readyState successEnvLogFail).state.values = sampleValues ∧
    (onSubmit readyState successEnvLogFail).state.submitStatus =
      { type := .error,
        message := "Network error. Please check your connection and try again." } := by
  decide

/-- C3: whenever any required field (name, email, phone, batch, roll
number, registration number, department) is empty or malformed — i.e.
fails its `formSchema` check, which the empty string always does — the
submission performs no network call, emits no log event, and surfaces
field-level validation errors. -/
theorem invalid_required_field_no_network (st : FormState) (env : Env)
    (h : st.values.name.length < 2 ∨ emailValid st.values.email = false ∨
         st.values.phone.length < 10 ∨ st.values.batch.length < 4 ∨
         st.values.rollNumber.length < 1 ∨
         st.values.registrationNumber.length < 1 ∨
         st.values.department.length < 1) :
    (handleSubmit st env).networkCalled = false ∧
    (handleSubmit st env).fieldErrors ≠ [] ∧
    (handleSubmit st env).logged = [] := by
  have hv : validateForm st.values ≠ [] := by
    rw [Ne, validateForm_eq_nil]
    intro hall
    obtain ⟨h1, h2, h3, h4, h5, h6, h7, -, -, -⟩ := hall
    rcases h with h | h | h | h | h | h | h <;> first | omega | simp_all
  simp [handleSubmit, hv]

/-- Witness for C3: an empty name blocks the submission locally. -/
theorem invalid_required_field_no_network_witness :
    (handleSubmit emptyNameState successEnv).networkCalled = false ∧
    (handleSubmit emptyNameState successEnv).fieldErrors ≠ [] ∧
    (handleSubmit emptyNameState successEnv).logged = [] :=
  invalid_required_field_no_network emptyNameState successEnv
    (Or.inl (by decide))

/-- C4: when the verification token read from the widget at submit time is
absent or empty, the submission is blocked with the verification-missing
error message and no network request or log call is made. -/
theorem missing_token_blocks_submission (st : FormState) (env : Env)
    (h : st.widgetToken = none ∨ st.widgetToken = some "") :
    (onSubmit st env).networkCalled = false ∧
    (onSubmit st env).state.submitStatus =
      { type := .error,
        message := "Please complete the reCAPTCHA verification." } ∧
    (onSubmit st env).navigatedTo = none ∧
    (onSubmit st env).logged = [] := by
  rcases h with h | h <;> simp [onSubmit, h, noTokenResult]

/-- Witness for C4: an unsolved widget blocks the submission. -/
theorem missing_token_blocks_submission_witness :
    (onSubmit noWidgetState successEnv).networkCalled = false ∧
    (onSubmit noWidgetState successEnv).state.submitStatus =
      { type := .error,
        message := "Please complete the reCAPTCHA verification." } ∧
    (onSubmit noWidgetState successEnv).navigatedTo = none ∧
    (onSubmit noWidgetState successEnv).logged = [] :=
  missing_token_blocks_submission noWidgetState successEnv (Or.inl rfl)

/-- C5: on a success-status response whose payload carries a non-empty
message and an application id, the controller reaches the success state,
clears all form fields and the verification token (form reset to defaults,
widget reset), surfaces the server message, and the logged event carries
the application id.  (Holds when the awaited success log call resolves;
see C2 for the rejecting case.) -/
theorem success_response_resets_and_logs (st : FormState) (env : Env)
    (tok m aid : String) (status : Nat) (p : Payload)
    (ht : st.widgetToken = some tok) (htok : tok ≠ "")
    (hf : env.fetchOutcome = .response status p)
    (hok : 200 ≤ status ∧ status ≤ 299)
    (hm : p.message = some m) (hm2 : m ≠ "")
    (haid : p.applicationId = some aid)
    (hlog : env.logOk (.joinFormSuccess p.applicationId) = true) :
    (onSubmit st env).state.submitStatus = { type := .success, message := m } ∧
    (onSubmit st env).state.values = defaultValues ∧
    (onSubmit st env).state.widgetToken = none ∧
    (onSubmit st env).logged = [.joinFormSuccess (some aid)] := by
  have hlog2 : env.logOk (.joinFormSuccess (some aid)) = true := haid ▸ hlog
  simp [onSubmit, ht, htok, hf, hok, hm, hm2, haid, orDefault, hlog2]

/-- Witness for C5: a 200 response with message and id `A1` succeeds,
clears everything and logs the id. -/
theorem success_response_resets_and_logs_witness :
    (onSubmit readyState successEnv).state.submitStatus =
      { type := .success, message := "Application received" } ∧
    (onSubmit readyState successEnv).state.values = defaultValues ∧
    (onSubmit readyState successEnv).state.widgetToken = none ∧
    (onSubmit readyState successEnv).logged =
      [.joinFormSuccess (some "A1")] :=
  success_response_resets_and_logs readyState successEnv "tok"
    "Application received" "A1" 200 successPayload rfl (by decide) rfl
    (by decide) rfl (by decide) rfl rfl

/-- C6: on a non-success, non-303 response the controller shows the
payload message (or the generic fallback when the payload has none),
clears only the verification token (the widget), retains every other
field value unchanged, and does not navigate. -/
theorem server_error_retains_fields (st : FormState) (env : Env)
    (tok : String) (status : Nat) (p : Payload)
    (ht : st.widgetToken = some tok) (htok : tok ≠ "")
    (hf : env.fetchOutcome = .response status p)
    (hnok : ¬(200 ≤ status ∧ status ≤ 299)) (h303 : status ≠ 303)
    (hlog : env.logOk
      (.joinFormError "validation_or_server_error" (some status) none) = true) :
    (onSubmit st env).state.submitStatus =
      { type := .error,
        message :=
          orDefault p.message "Failed to submit application. Please try again." } ∧
    (onSubmit st env).state.widgetToken = none ∧
    (onSubmit st env).state.values = st.values ∧
    (onSubmit st env).navigatedTo = none := by
  simp [onSubmit, ht, htok, hf, hnok, h303, hlog]

/-- Witness for C6: a 429 with message `Too many requests` surfaces that
message, clears the widget and keeps the other fields. -/
theorem server_error_retains_fields_witness :
    (onSubmit readyState rateLimitEnv).state.submitStatus =
      { type := .error, message := "Too many requests" } ∧
    (onSubmit readyState rateLimitEnv).state.widgetToken = none ∧
    (onSubmit readyState rateLimitEnv).state.values = readyState.values ∧
    (onSubmit readyState rateLimitEnv).navigatedTo = none := by
  have h := server_error_retains_fields readyState rateLimitEnv "tok" 429
    { message := some "Too many requests", applicationId := none,
      redirect := none }
    rfl (by decide) rfl (by decide) (by decide) rfl
  simpa [orDefault] using h

/-- C7: when the network call rejects with no response received, the
controller reaches the recoverable-error state with the generic
connectivity message, clears the verification token, retains the other
field values and does not navigate. -/
theorem network_failure_recoverable (st : FormState) (env : Env)
    (tok msg : String)
    (ht : st.widgetToken = some tok) (htok : tok ≠ "")
    (hf : env.fetchOutcome = .failure msg)
    (hlog : env.logOk (.joinFormError "network_error" none (some msg)) = true) :
    (onSubmit st env).state.submitStatus =
      { type := .error,
        message := "Network error. Please check your connection and try again." } ∧
    (onSubmit st env).state.widgetToken = none ∧
    (onSubmit st env).state.values = st.values ∧
    (onSubmit st env).navigatedTo = none := by
  simp [onSubmit, catchBlock, ht, htok, hf, hlog]

/-- Witness for C7: a rejected fetch yields the connectivity banner with
fields retained and the widget cleared. -/
theorem network_failure_recoverable_witness :
    (onSubmit readyState netFailEnv).state.submitStatus =
      { type := .error,
        message := "Network error. Please check your connection and try again." } ∧
    (onSubmit readyState netFailEnv).state.widgetToken = none ∧
    (onSubmit readyState netFailEnv).state.values = readyState.values ∧
    (onSubmit readyState netFailEnv).navigatedTo = none :=
  network_failure_recoverable readyState netFailEnv "tok" "Failed to fetch"
    rfl (by decide) rfl rfl

/-- C8: whenever the motivation text is shorter than the 50-character
minimum, the submission is blocked before any network call — regardless of
every other field value, since the state is universally quantified. -/
theorem short_motivation_blocks (st : FormState) (env : Env)
    (h : st.values.whyJoin.length < 50) :
    (handleSubmit st env).networkCalled = false ∧
    (handleSubmit st env).fieldErrors ≠ [] ∧
    (handleSubmit st env).logged = [] := by
  have hv : validateForm st.values ≠ [] := by
    rw [Ne, validateForm_eq_nil]
    intro hall
    obtain ⟨-, -, -, -, -, -, -, -, h9, -⟩ := hall
    omega
  simp [handleSubmit, hv]

/-- Witness for C8: an otherwise fully valid state with a short motivation
text is blocked locally. -/
theorem short_motivation_blocks_witness :
    (handleSubmit shortWhyState successEnv).networkCalled = false ∧
    (handleSubmit shortWhyState successEnv).fieldErrors ≠ [] ∧
    (handleSubmit shortWhyState successEnv).logged = [] :=
  short_motivation_blocks shortWhyState successEnv (by decide)

/-- C9: at most one submission is in flight.  While `isSubmitting` is set,
a further submit attempt is a no-op — no network call, no log call, no
state change (the button is disabled).  And once an attempt completes on
any non-navigating path, `isSubmitting` is false again, re-enabling
submission. -/
theorem single_submission_in_flight (st : FormState) (env : Env) :
    (st.isSubmitting = true →
      (submitEvent st env).networkCalled = false ∧
      (submitEvent st env).state = st ∧
      (submitEvent st env).logged = []) ∧
    (st.isSubmitting = false →
      (submitEvent st env).navigatedTo = none →
      (submitEvent st env).state.isSubmitting = false) := by
  constructor
  · intro h
    simp [submitEvent, h]
  · intro h _
    by_cases hv : validateForm st.values = []
    · simp [submitEvent, handleSubmit, h, hv, onSubmit_not_submitting]
    · simp [submitEvent, handleSubmit, h, hv]

/-- Witness for C9: with a submission in flight the attempt is rejected
unchanged, and a completed (non-navigating) attempt leaves submission
re-enabled. -/
theorem single_submission_in_flight_witness :
    ((submitEvent busyState successEnv).networkCalled = false ∧
     (submitEvent busyState successEnv).state = busyState ∧
     (submitEvent busyState successEnv).logged = []) ∧
    (submitEvent readyState successEnv).state.isSubmitting = false :=
  ⟨(single_submission_in_flight busyState successEnv).1 rfl,
   (single_submission_in_flight readyState successEnv).2 rfl (by decide)⟩

/-- C10: a 303 response whose payload lacks a truthy `redirect` does not
navigate; it falls through to the generic error branch — the payload
message (or the generic fallback) is shown, the verification token is
cleared and the other fields are retained. -/
theorem redirect_without_location_is_error (st : FormState) (env : Env)
    (tok : String) (p : Payload)
    (ht : st.widgetToken = some tok) (htok : tok ≠ "")
    (hf : env.fetchOutcome = .response 303 p)
    (hr : truthyStr p.redirect = false)
    (hlog : env.logOk
      (.joinFormError "validation_or_server_error" (some 303) none) = true) :
    (onSubmit st env).navigatedTo = none ∧
    (onSubmit st env).state.submitStatus =
      { type := .error,
        message :=
          orDefault p.message "Failed to submit application. Please try again." } ∧
    (onSubmit st env).state.widgetToken = none ∧
    (onSubmit st env).state.values = st.values := by
  simp [onSubmit, ht, htok, hf, hr, hlog]

/-- Witness for C10: a 303 without a redirect location shows the payload
message and keeps the fields. -/
theorem redirect_without_location_is_error_witness :
    (onSubmit readyState redirectNoLocEnv).navigatedTo = none ∧
    (onSubmit readyState redirectNoLocEnv).state.submitStatus =
      { type := .error, message := "Forbidden" } ∧
    (onSubmit readyState redirectNoLocEnv).state.widgetToken = none ∧
    (onSubmit readyState redirectNoLocEnv).state.values = readyState.values := by
  have h := redirect_without_location_is_error readyState redirectNoLocEnv
    "tok"
    { message := some "Forbidden", applicationId := none, redirect := none }
    rfl (by decide) rfl rfl rfl
  simpa [orDefault] using h
